import Mathlib

/-
Shallow embedding of the Minyan Finder API core (src/utils.py, src/routes.py,
src/app.py).  Python floats are modelled as real numbers, parsed datetimes as
integers ordered like timestamps, and dynamically typed JSON values by `PyVal`.
The stdlib call `datetime.fromisoformat(s.replace('Z', '+00:00'))` is abstracted
as a parameter `parse : String → Except String ℤ` (ok = parsed instant,
error = the exception message).
-/

/-- A dynamically typed Python/JSON value as it reaches the validators:
a number, a string, or `None`. -/
inductive PyVal where
  | num (x : ℝ)
  | str (s : String)
  | null

/-- Extract the number from a `PyVal` known (after validation) to be numeric. -/
def PyVal.toReal : PyVal → ℝ
  | PyVal.num x => x
  | _ => 0

/-- Extract the string from a `PyVal` known (after validation) to be a string. -/
def PyVal.toStr : PyVal → String
  | PyVal.str s => s
  | _ => ""

/-- The function `validate_coordinates` of src/utils.py: the `isinstance` check rejects
non-numbers, then latitude and longitude range checks in order. -/
noncomputable def validate_coordinates (latitude longitude : PyVal) : Bool × String :=
  match latitude, longitude with
  | PyVal.num lat, PyVal.num lon =>
      if lat < -90 ∨ lat > 90 then (false, "Latitude must be between -90 and 90")
      else if lon < -180 ∨ lon > 180 then (false, "Longitude must be between -180 and 180")
      else (true, "")
  | _, _ => (false, "Latitude and longitude must be numbers")

/-- The function `validate_minyan_type` of src/utils.py: membership in the literal list
`["shacharit", "mincha", "maariv"]`. -/
def validate_minyan_type (minyan_type : PyVal) : Bool × String :=
  match minyan_type with
  | PyVal.str s =>
      if s = "shacharit" ∨ s = "mincha" ∨ s = "maariv" then (true, "")
      else (false, "Minyan type must be one of: shacharit, mincha, maariv")
  | _ => (false, "Minyan type must be one of: shacharit, mincha, maariv")

/-- Degrees to radians (math.radians). -/
noncomputable def radians (d : ℝ) : ℝ := d * (Real.pi / 180)

/-- The function `calculate_distance` of src/utils.py: the haversine formula with Earth radius
3959.0 miles. -/
noncomputable def calculate_distance (lat1 lon1 lat2 lon2 : ℝ) : ℝ :=
  let R : ℝ := 3959.0
  let lat1_rad := radians lat1
  let lon1_rad := radians lon1
  let lat2_rad := radians lat2
  let lon2_rad := radians lon2
  let dlat := lat2_rad - lat1_rad
  let dlon := lon2_rad - lon1_rad
  let a := Real.sin (dlat / 2) ^ 2 +
    Real.cos lat1_rad * Real.cos lat2_rad * Real.sin (dlon / 2) ^ 2
  let c := 2 * Real.arcsin (Real.sqrt a)
  R * c

/-- Modelled from the spec: the Broadcast record of spec section 3 (the ORM
class lives in models.py, which is not under src/).  `earliestTime` and
`latestTime` are parsed timestamps, ordered as instants. -/
structure Broadcast where
  id : String
  latitude : ℝ
  longitude : ℝ
  minyanType : String
  earliestTime : ℤ
  latestTime : ℤ
  active : Bool

/-- An API-level failure: (error message, HTTP status).  400 plays the role of
ValidationError, 404 of NotFoundError. -/
abbrev ApiErr := String × Nat

/-- Parsing a dynamically typed time field, src/routes.py: a non-string raises
AttributeError on `.replace` (caught together with ValueError), a string goes
through `datetime.fromisoformat`. -/
def parsePyTime (parse : String → Except String ℤ) : PyVal → Except String ℤ
  | PyVal.str s => parse s
  | _ => Except.error "AttributeError"

/-- The JSON body of a create request: each required key may be present
(with a dynamically typed value) or absent. -/
structure CreateData where
  latitude : Option PyVal
  longitude : Option PyVal
  minyanType : Option PyVal
  earliestTime : Option PyVal
  latestTime : Option PyVal

/-- The JSON body of an update request (partial: every key optional). -/
structure UpdateData where
  latitude : Option PyVal
  longitude : Option PyVal
  earliestTime : Option PyVal
  latestTime : Option PyVal

/-- The handler `Broadcasts.post` of src/routes.py: required-field check in the literal list
order, coordinate validation, minyan-type validation, time parsing (earliest
first, inside one try block), strict time-order check, then the insert.
`newId` stands for the id the store assigns to the fresh row. -/
noncomputable def Broadcasts_post (parse : String → Except String ℤ) (newId : String)
    (data : CreateData) : Except ApiErr Broadcast :=
  match data.latitude with
  | none => Except.error ("Missing required field: latitude", 400)
  | some v_lat =>
  match data.longitude with
  | none => Except.error ("Missing required field: longitude", 400)
  | some v_lon =>
  match data.minyanType with
  | none => Except.error ("Missing required field: minyanType", 400)
  | some v_mt =>
  match data.earliestTime with
  | none => Except.error ("Missing required field: earliestTime", 400)
  | some v_et =>
  match data.latestTime with
  | none => Except.error ("Missing required field: latestTime", 400)
  | some v_lt =>
  let v := validate_coordinates v_lat v_lon
  if v.1 = false then Except.error (v.2, 400)
  else
    let w := validate_minyan_type v_mt
    if w.1 = false then Except.error (w.2, 400)
    else
      match parsePyTime parse v_et with
      | Except.error e => Except.error ("Invalid time format: " ++ e, 400)
      | Except.ok earliest_time =>
      match parsePyTime parse v_lt with
      | Except.error e => Except.error ("Invalid time format: " ++ e, 400)
      | Except.ok latest_time =>
      if latest_time ≤ earliest_time then
        Except.error ("latestTime must be after earliestTime", 400)
      else
        Except.ok { id := newId, latitude := PyVal.toReal v_lat,
                    longitude := PyVal.toReal v_lon, minyanType := PyVal.toStr v_mt,
                    earliestTime := earliest_time, latestTime := latest_time,
                    active := true }

/-- The stored table after a create request: the row is inserted only when the
handler reaches `db_session.commit()`; on any validation error nothing was
added. -/
noncomputable def Broadcasts_post_table (parse : String → Except String ℤ) (newId : String)
    (store : List Broadcast) (data : CreateData) : List Broadcast :=
  match Broadcasts_post parse newId data with
  | Except.ok b => store ++ [b]
  | Except.error _ => store

/-- The distance-filter loop of src/routes.py `NearbyBroadcasts.get`
(lines 154-158): keep broadcasts whose haversine distance is ≤ radius. -/
noncomputable def keepNearby (latitude longitude radius : ℝ) :
    List Broadcast → List Broadcast
  | [] => []
  | b :: rest =>
      if calculate_distance latitude longitude b.latitude b.longitude ≤ radius then
        b :: keepNearby latitude longitude radius rest
      else
        keepNearby latitude longitude radius rest

/-- The handler `NearbyBroadcasts.get` of src/routes.py: validate coordinates, reject a
negative radius, validate `minyanType` only when it is truthy (Python
`if minyan_type:` — `None` and the empty string both skip the check and the
type filter), then scan active broadcasts and filter by distance. -/
noncomputable def NearbyBroadcasts_get (store : List Broadcast)
    (latitude longitude radius : ℝ) (minyan_type : Option String) :
    Except ApiErr (List Broadcast) :=
  let v := validate_coordinates (PyVal.num latitude) (PyVal.num longitude)
  if v.1 = false then Except.error (v.2, 400)
  else if radius < 0 then Except.error ("Radius must be non-negative", 400)
  else
    match minyan_type with
    | some s =>
        if s = "" then
          Except.ok (keepNearby latitude longitude radius (store.filter (fun b => b.active)))
        else
          let w := validate_minyan_type (PyVal.str s)
          if w.1 = false then Except.error (w.2, 400)
          else
            Except.ok (keepNearby latitude longitude radius
              ((store.filter (fun b => b.active)).filter (fun b => b.minyanType == s)))
    | none =>
        Except.ok (keepNearby latitude longitude radius (store.filter (fun b => b.active)))

/-- Lines 214-227 of src/routes.py `BroadcastById.put`: if either coordinate key
is present, merge with the stored pair, validate the merged pair together, and
assign both on success. -/
noncomputable def put_update_coords (broadcast : Broadcast) (data : UpdateData) :
    Except ApiErr Broadcast :=
  if data.latitude.isSome || data.longitude.isSome then
    let new_lat := data.latitude.getD (PyVal.num broadcast.latitude)
    let new_lon := data.longitude.getD (PyVal.num broadcast.longitude)
    let v := validate_coordinates new_lat new_lon
    if v.1 = false then Except.error (v.2, 400)
    else
      Except.ok { broadcast with
                  latitude := PyVal.toReal new_lat
                  longitude := PyVal.toReal new_lon }
  else Except.ok broadcast

/-- Lines 229-238 of src/routes.py `BroadcastById.put`: if `earliestTime` is
present, parse it and assign immediately; a parse failure aborts the request. -/
def put_update_earliest (parse : String → Except String ℤ) (data : UpdateData)
    (b1 : Broadcast) : Except ApiErr Broadcast :=
  match data.earliestTime with
  | none => Except.ok b1
  | some v_et =>
      match parsePyTime parse v_et with
      | Except.error e => Except.error ("Invalid earliestTime format: " ++ e, 400)
      | Except.ok t => Except.ok { b1 with earliestTime := t }

/-- Lines 240-249 of src/routes.py `BroadcastById.put`: same for `latestTime`. -/
def put_update_latest (parse : String → Except String ℤ) (data : UpdateData)
    (b2 : Broadcast) : Except ApiErr Broadcast :=
  match data.latestTime with
  | none => Except.ok b2
  | some v_lt =>
      match parsePyTime parse v_lt with
      | Except.error e => Except.error ("Invalid latestTime format: " ++ e, 400)
      | Except.ok t => Except.ok { b2 with latestTime := t }

/-- The handler `BroadcastById.put` of src/routes.py, after the by-id lookup succeeded:
an absent/null JSON body becomes `{}` (lines 208-211); then the three update
blocks run in order, and finally the resulting pair must satisfy
latest > earliest (lines 251-255).  Returns the mutated row that `commit()`
persists, or the error response. -/
noncomputable def BroadcastById_put (parse : String → Except String ℤ)
    (broadcast : Broadcast) (body : Option UpdateData) : Except ApiErr Broadcast :=
  let data := body.getD ⟨none, none, none, none⟩
  match put_update_coords broadcast data with
  | Except.error e => Except.error e
  | Except.ok b1 =>
  match put_update_earliest parse data b1 with
  | Except.error e => Except.error e
  | Except.ok b2 =>
  match put_update_latest parse data b2 with
  | Except.error e => Except.error e
  | Except.ok b3 =>
  if b3.latestTime ≤ b3.earliestTime then
    Except.error ("latestTime must be after earliestTime", 400)
  else Except.ok b3

/-- The persisted row after an update request.  On success the handler commits
the mutation; on any error it returns without committing and the request-scoped
session is closed by `close_db` (src/app.py), discarding the uncommitted
in-memory mutation, so the stored row is the original one. -/
noncomputable def BroadcastById_put_row (parse : String → Except String ℤ)
    (broadcast : Broadcast) (body : Option UpdateData) : Broadcast :=
  match BroadcastById_put parse broadcast body with
  | Except.ok b3 => b3
  | Except.error _ => broadcast

/-- The first absent required field of a create body, in the handler's fixed
order — the spec-side description used to state claim C7. -/
def firstMissingField (d : CreateData) : Option String :=
  if d.latitude.isNone then some "latitude"
  else if d.longitude.isNone then some "longitude"
  else if d.minyanType.isNone then some "minyanType"
  else if d.earliestTime.isNone then some "earliestTime"
  else if d.latestTime.isNone then some "latestTime"
  else none

/-- The data-model invariants of spec section 3. -/
def BroadcastInv (b : Broadcast) : Prop :=
  -90 ≤ b.latitude ∧ b.latitude ≤ 90 ∧ -180 ≤ b.longitude ∧ b.longitude ≤ 180 ∧
  b.earliestTime < b.latestTime ∧ b.active = true

lemma calculate_distance_self (lat lon : ℝ) : calculate_distance lat lon lat lon = 0 := by
  simp [calculate_distance, radians]

lemma sin_half_sub_sq (x y : ℝ) : Real.sin ((x - y) / 2) ^ 2 = Real.sin ((y - x) / 2) ^ 2 := by
  have h : (x - y) / 2 = -((y - x) / 2) := by ring
  rw [h, Real.sin_neg]
  ring

lemma calculate_distance_comm (lat1 lon1 lat2 lon2 : ℝ) :
    calculate_distance lat1 lon1 lat2 lon2 = calculate_distance lat2 lon2 lat1 lon1 := by
  simp only [calculate_distance]
  rw [sin_half_sub_sq (radians lat2) (radians lat1),
    sin_half_sub_sq (radians lon2) (radians lon1),
    mul_comm (Real.cos (radians lat1)) (Real.cos (radians lat2))]

lemma mem_keepNearby (lat lon r : ℝ) (l : List Broadcast) (b : Broadcast) :
    b ∈ keepNearby lat lon r l ↔
      b ∈ l ∧ calculate_distance lat lon b.latitude b.longitude ≤ r := by
  induction l with
  | nil => simp [keepNearby]
  | cons a rest ih =>
      by_cases h : calculate_distance lat lon a.latitude a.longitude ≤ r
      · simp only [keepNearby, if_pos h, List.mem_cons, ih]
        constructor
        · rintro (rfl | ⟨hb, hd⟩)
          · exact ⟨Or.inl rfl, h⟩
          · exact ⟨Or.inr hb, hd⟩
        · rintro ⟨rfl | hb, hd⟩
          · exact Or.inl rfl
          · exact Or.inr ⟨hb, hd⟩
      · simp only [keepNearby, if_neg h, List.mem_cons, ih]
        constructor
        · rintro ⟨hb, hd⟩
          exact ⟨Or.inr hb, hd⟩
        · rintro ⟨rfl | hb, hd⟩
          · exact absurd hd h
          · exact ⟨hb, hd⟩

lemma validate_coordinates_ok (a b : PyVal) :
    validate_coordinates a b = (true, "") ↔
      ∃ x y, a = PyVal.num x ∧ b = PyVal.num y ∧
        -90 ≤ x ∧ x ≤ 90 ∧ -180 ≤ y ∧ y ≤ 180 := by
  cases a <;> cases b <;> simp [validate_coordinates]
  case num.num x y =>
    split_ifs with h1 h2
    · simp only [Prod.mk.injEq, Bool.false_eq_true, false_and, false_iff]
      rintro ⟨hx1, hx2, hy1, hy2⟩
      rcases h1 with h | h
      · exact absurd hx1 (not_le.mpr h)
      · exact absurd hx2 (not_le.mpr h)
    · simp only [Prod.mk.injEq, Bool.false_eq_true, false_and, false_iff]
      rintro ⟨hx1, hx2, hy1, hy2⟩
      rcases h2 with h | h
      · exact absurd hy1 (not_le.mpr h)
      · exact absurd hy2 (not_le.mpr h)
    · push_neg at h1 h2
      simp [h1.1, h1.2, h2.1, h2.2]

lemma validate_coordinates_fst (a b : PyVal) :
    (validate_coordinates a b).1 = true ↔ validate_coordinates a b = (true, "") := by
  cases a <;> cases b <;> simp [validate_coordinates]
  case num.num x y => split_ifs <;> simp

lemma validate_minyan_type_fst_true (v : PyVal) :
    (validate_minyan_type v).1 = true ↔
      v = PyVal.str "shacharit" ∨ v = PyVal.str "mincha" ∨ v = PyVal.str "maariv" := by
  cases v <;> simp [validate_minyan_type]
  case str s => split_ifs with h <;> simp [h]

lemma get_none_eq (store : List Broadcast) (lat lon r : ℝ)
    (hv : (validate_coordinates (PyVal.num lat) (PyVal.num lon)).1 = true)
    (hr : ¬ r < 0) :
    NearbyBroadcasts_get store lat lon r none =
      Except.ok (keepNearby lat lon r (store.filter (fun b => b.active))) := by
  simp [NearbyBroadcasts_get, hv, hr]

lemma get_some_eq (store : List Broadcast) (lat lon r : ℝ) (s : String)
    (hv : (validate_coordinates (PyVal.num lat) (PyVal.num lon)).1 = true)
    (hr : ¬ r < 0) (hs : s ≠ "")
    (hw : (validate_minyan_type (PyVal.str s)).1 = true) :
    NearbyBroadcasts_get store lat lon r (some s) =
      Except.ok (keepNearby lat lon r
        ((store.filter (fun b => b.active)).filter (fun b => b.minyanType == s))) := by
  simp [NearbyBroadcasts_get, hv, hr, hs, hw]

lemma get_some_invalid_eq (store : List Broadcast) (lat lon r : ℝ) (s : String)
    (hv : (validate_coordinates (PyVal.num lat) (PyVal.num lon)).1 = true)
    (hr : ¬ r < 0) (hs : s ≠ "")
    (hw : (validate_minyan_type (PyVal.str s)).1 = false) :
    NearbyBroadcasts_get store lat lon r (some s) =
      Except.error ((validate_minyan_type (PyVal.str s)).2, 400) := by
  simp [NearbyBroadcasts_get, hv, hr, hs, hw]

lemma get_some_empty_eq (store : List Broadcast) (lat lon r : ℝ) :
    NearbyBroadcasts_get store lat lon r (some "") =
      NearbyBroadcasts_get store lat lon r none := by
  simp [NearbyBroadcasts_get]

lemma mem_active_keepNearby (store : List Broadcast) (lat lon r : ℝ) (b : Broadcast) :
    b ∈ keepNearby lat lon r (store.filter (fun b => b.active)) ↔
      b ∈ store ∧ b.active = true ∧
        calculate_distance lat lon b.latitude b.longitude ≤ r := by
  rw [mem_keepNearby, List.mem_filter]
  tauto

lemma mem_typed_keepNearby (store : List Broadcast) (lat lon r : ℝ) (s : String)
    (b : Broadcast) :
    b ∈ keepNearby lat lon r
        ((store.filter (fun b => b.active)).filter (fun b => b.minyanType == s)) ↔
      b ∈ store ∧ b.active = true ∧ b.minyanType = s ∧
        calculate_distance lat lon b.latitude b.longitude ≤ r := by
  rw [mem_keepNearby, List.mem_filter, List.mem_filter]
  simp only [beq_iff_eq]
  tauto

lemma valid_minyan_ne_empty (s : String)
    (hw : (validate_minyan_type (PyVal.str s)).1 = true) : s ≠ "" := by
  rw [validate_minyan_type_fst_true] at hw
  rcases hw with h | h | h <;> simp [PyVal.str.injEq] at h <;> subst h <;> decide

/-- A concrete stored broadcast used by the closed witness statements. -/
def b0 : Broadcast :=
  { id := "broadcast-1", latitude := 40.0, longitude := -74.0,
    minyanType := "shacharit", earliestTime := 28800, latestTime := 32400,
    active := true }

/-- A concrete instantiation of the abstract ISO-8601 parser, mapping the two
spec example timestamps to instants and failing elsewhere. -/
def parseFix : String → Except String ℤ := fun s =>
  if s = "2025-12-27T08:00:00Z" then Except.ok 28800
  else if s = "2025-12-27T09:00:00Z" then Except.ok 32400
  else Except.error "Invalid isoformat string"

lemma validate_coordinates_toReal (a c : PyVal)
    (h : (validate_coordinates a c).1 = true) :
    -90 ≤ a.toReal ∧ a.toReal ≤ 90 ∧ -180 ≤ c.toReal ∧ c.toReal ≤ 180 := by
  rw [validate_coordinates_fst, validate_coordinates_ok] at h
  obtain ⟨x, y, rfl, rfl, hx1, hx2, hy1, hy2⟩ := h
  exact ⟨hx1, hx2, hy1, hy2⟩

lemma put_update_coords_ok (b : Broadcast) (d : UpdateData) (b1 : Broadcast)
    (h : put_update_coords b d = Except.ok b1) :
    b1.id = b.id ∧ b1.minyanType = b.minyanType ∧ b1.active = b.active ∧
    b1.earliestTime = b.earliestTime ∧ b1.latestTime = b.latestTime ∧
    (b1 = b ∨ (-90 ≤ b1.latitude ∧ b1.latitude ≤ 90 ∧
      -180 ≤ b1.longitude ∧ b1.longitude ≤ 180)) := by
  simp only [put_update_coords] at h
  split at h
  · split at h
    · exact Except.noConfusion h
    · rename_i hcond
      rw [Except.ok.injEq] at h
      subst h
      refine ⟨rfl, rfl, rfl, rfl, rfl, Or.inr ?_⟩
      exact validate_coordinates_toReal _ _ (Bool.not_eq_false _ ▸ eq_true_of_ne_false hcond)
  · rw [Except.ok.injEq] at h
    subst h
    exact ⟨rfl, rfl, rfl, rfl, rfl, Or.inl rfl⟩

lemma put_update_earliest_ok (parse : String → Except String ℤ) (d : UpdateData)
    (b1 b2 : Broadcast) (h : put_update_earliest parse d b1 = Except.ok b2) :
    b2.id = b1.id ∧ b2.minyanType = b1.minyanType ∧ b2.active = b1.active ∧
    b2.latitude = b1.latitude ∧ b2.longitude = b1.longitude ∧
    b2.latestTime = b1.latestTime := by
  unfold put_update_earliest at h
  split at h
  · rw [Except.ok.injEq] at h
    subst h
    exact ⟨rfl, rfl, rfl, rfl, rfl, rfl⟩
  · split at h
    · exact Except.noConfusion h
    · rw [Except.ok.injEq] at h
      subst h
      exact ⟨rfl, rfl, rfl, rfl, rfl, rfl⟩

lemma put_update_latest_ok (parse : String → Except String ℤ) (d : UpdateData)
    (b2 b3 : Broadcast) (h : put_update_latest parse d b2 = Except.ok b3) :
    b3.id = b2.id ∧ b3.minyanType = b2.minyanType ∧ b3.active = b2.active ∧
    b3.latitude = b2.latitude ∧ b3.longitude = b2.longitude ∧
    b3.earliestTime = b2.earliestTime := by
  unfold put_update_latest at h
  split at h
  · rw [Except.ok.injEq] at h
    subst h
    exact ⟨rfl, rfl, rfl, rfl, rfl, rfl⟩
  · split at h
    · exact Except.noConfusion h
    · rw [Except.ok.injEq] at h
      subst h
      exact ⟨rfl, rfl, rfl, rfl, rfl, rfl⟩

lemma put_ok_spec (parse : String → Except String ℤ) (b : Broadcast)
    (body : Option UpdateData) (b3 : Broadcast)
    (h : BroadcastById_put parse b body = Except.ok b3) :
    b3.id = b.id ∧ b3.minyanType = b.minyanType ∧ b3.active = b.active ∧
    b3.earliestTime < b3.latestTime ∧
    ((-90 ≤ b.latitude ∧ b.latitude ≤ 90 ∧ -180 ≤ b.longitude ∧ b.longitude ≤ 180) →
      -90 ≤ b3.latitude ∧ b3.latitude ≤ 90 ∧
        -180 ≤ b3.longitude ∧ b3.longitude ≤ 180) := by
  simp only [BroadcastById_put] at h
  split at h
  · exact Except.noConfusion h
  · rename_i b1 h1
    split at h
    · exact Except.noConfusion h
    · rename_i b2 h2
      split at h
      · exact Except.noConfusion h
      · rename_i b3' h3
        split at h
        · exact Except.noConfusion h
        · rename_i htime
          rw [Except.ok.injEq] at h
          subst h
          obtain ⟨e1, e2, e3, _, _, ecoord⟩ := put_update_coords_ok b _ b1 h1
          obtain ⟨f1, f2, f3, f4, f5, _⟩ := put_update_earliest_ok parse _ b1 b2 h2
          obtain ⟨g1, g2, g3, g4, g5, _⟩ := put_update_latest_ok parse _ b2 b3' h3
          refine ⟨g1.trans (f1.trans e1), g2.trans (f2.trans e2),
            g3.trans (f3.trans e3), not_le.mp htime, ?_⟩
          intro hb
          rw [g4, g5, f4, f5]
          rcases ecoord with rfl | hbounds
          · exact hb
          · exact hbounds

lemma post_ok_spec (parse : String → Except String ℤ) (newId : String)
    (d : CreateData) (b : Broadcast)
    (h : Broadcasts_post parse newId d = Except.ok b) :
    b.active = true ∧ -90 ≤ b.latitude ∧ b.latitude ≤ 90 ∧
    -180 ≤ b.longitude ∧ b.longitude ≤ 180 ∧ b.earliestTime < b.latestTime := by
  simp only [Broadcasts_post] at h
  split at h
  · exact Except.noConfusion h
  · rename_i v_lat _
    split at h
    · exact Except.noConfusion h
    · rename_i v_lon _
      split at h
      · exact Except.noConfusion h
      · rename_i v_mt _
        split at h
        · exact Except.noConfusion h
        · rename_i v_et _
          split at h
          · exact Except.noConfusion h
          · rename_i v_lt _
            split at h
            · exact Except.noConfusion h
            · rename_i hvc
              split at h
              · exact Except.noConfusion h
              · rename_i hmt
                split at h
                · exact Except.noConfusion h
                · rename_i earliest_time het
                  split at h
                  · exact Except.noConfusion h
                  · rename_i latest_time hlt
                    split at h
                    · exact Except.noConfusion h
                    · rename_i htime
                      rw [Except.ok.injEq] at h
                      subst h
                      obtain ⟨h1, h2, h3, h4⟩ :=
                        validate_coordinates_toReal v_lat v_lon
                          (eq_true_of_ne_false hvc)
                      exact ⟨rfl, h1, h2, h3, h4, not_le.mp htime⟩

lemma option_ne_none_some {α : Type} (o : Option α) (h : ¬ o.isNone = true) :
    ∃ v, o = some v := by
  cases o
  · simp at h
  · exact ⟨_, rfl⟩

/-- C3: the data-model invariants (coordinate ranges, strict time order,
active = true) hold for every broadcast returned by a successful create, and
are preserved by every successful update. -/
theorem C3_invariants_create_update :
    (∀ parse newId d b, Broadcasts_post parse newId d = Except.ok b →
      BroadcastInv b) ∧
    (∀ parse b body b3, BroadcastInv b →
      BroadcastById_put parse b body = Except.ok b3 → BroadcastInv b3) := by
  constructor
  · intro parse newId d b h
    obtain ⟨h1, h2, h3, h4, h5, h6⟩ := post_ok_spec parse newId d b h
    exact ⟨h2, h3, h4, h5, h6, h1⟩
  · intro parse b body b3 hInv h
    obtain ⟨_, _, hact, htime, hcoords⟩ := put_ok_spec parse b body b3 h
    obtain ⟨i1, i2, i3, i4, _, i6⟩ := hInv
    obtain ⟨c1, c2, c3, c4⟩ := hcoords ⟨i1, i2, i3, i4⟩
    exact ⟨c1, c2, c3, c4, htime, hact.trans i6⟩

/-- A valid create body matching the spec section 8 example. -/
def dGood : CreateData :=
  { latitude := some (PyVal.num 40.0), longitude := some (PyVal.num (-74.0)),
    minyanType := some (PyVal.str "shacharit"),
    earliestTime := some (PyVal.str "2025-12-27T08:00:00Z"),
    latestTime := some (PyVal.str "2025-12-27T09:00:00Z") }

/-- C3 witness: a concrete successful create and a concrete successful update,
each yielding a broadcast satisfying the invariants. -/
theorem C3_invariants_create_update_witness :
    (∃ b, Broadcasts_post parseFix "id-1" dGood = Except.ok b ∧ BroadcastInv b) ∧
    (∃ b, BroadcastById_put parseFix b0 none = Except.ok b ∧ BroadcastInv b) := by
  have hcreate : Broadcasts_post parseFix "id-1" dGood =
      Except.ok { id := "id-1", latitude := 40.0, longitude := -74.0,
                  minyanType := "shacharit", earliestTime := 28800,
                  latestTime := 32400, active := true } := by
    norm_num [Broadcasts_post, dGood, validate_coordinates, validate_minyan_type,
      parsePyTime, parseFix, PyVal.toReal, PyVal.toStr]
    rw [if_neg (by decide : ¬ ("2025-12-27T09:00:00Z" = "2025-12-27T08:00:00Z"))]
    norm_num
  have hput : BroadcastById_put parseFix b0 none = Except.ok b0 := by
    simp [BroadcastById_put, put_update_coords, put_update_earliest,
      put_update_latest, b0]
  have hInv0 : BroadcastInv b0 := by norm_num [BroadcastInv, b0]
  exact ⟨⟨_, hcreate, C3_invariants_create_update.1 parseFix "id-1" dGood _ hcreate⟩,
    ⟨_, hput, C3_invariants_create_update.2 parseFix b0 none b0 hInv0 hput⟩⟩

/-- C7: a create body with at least one required field absent fails with 400
and a message naming the first absent field in the fixed order latitude,
longitude, minyanType, earliestTime, latestTime, and the table is unchanged. -/
theorem C7_create_missing_field (parse : String → Except String ℤ)
    (newId : String) (store : List Broadcast) (d : CreateData) (f : String)
    (h : firstMissingField d = some f) :
    Broadcasts_post parse newId d =
      Except.error ("Missing required field: " ++ f, 400) ∧
    Broadcasts_post_table parse newId store d = store := by
  have h1 : Broadcasts_post parse newId d =
      Except.error ("Missing required field: " ++ f, 400) := by
    rcases hlat : d.latitude with _ | vlat
    · simp only [firstMissingField, hlat, Option.isNone_none, if_true] at h
      rw [Option.some.injEq] at h
      subst h
      simp [Broadcasts_post, hlat]
    · rcases hlon : d.longitude with _ | vlon
      · simp only [firstMissingField, hlat, hlon, Option.isNone_some,
          Option.isNone_none, Bool.false_eq_true, if_false, if_true] at h
        rw [Option.some.injEq] at h
        subst h
        simp [Broadcasts_post, hlat, hlon]
      · rcases hmt : d.minyanType with _ | vmt
        · simp only [firstMissingField, hlat, hlon, hmt, Option.isNone_some,
            Option.isNone_none, Bool.false_eq_true, if_false, if_true] at h
          rw [Option.some.injEq] at h
          subst h
          simp [Broadcasts_post, hlat, hlon, hmt]
        · rcases het : d.earliestTime with _ | vet
          · simp only [firstMissingField, hlat, hlon, hmt, het, Option.isNone_some,
              Option.isNone_none, Bool.false_eq_true, if_false, if_true] at h
            rw [Option.some.injEq] at h
            subst h
            simp [Broadcasts_post, hlat, hlon, hmt, het]
          · rcases hlt : d.latestTime with _ | vlt
            · simp only [firstMissingField, hlat, hlon, hmt, het, hlt,
                Option.isNone_some, Option.isNone_none, Bool.false_eq_true,
                if_false, if_true] at h
              rw [Option.some.injEq] at h
              subst h
              simp [Broadcasts_post, hlat, hlon, hmt, het, hlt]
            · simp [firstMissingField, hlat, hlon, hmt, het, hlt] at h
  exact ⟨h1, by simp [Broadcasts_post_table, h1]⟩

/-- A create body whose first absent required field is longitude. -/
def dMiss : CreateData :=
  { latitude := some (PyVal.num 1.0), longitude := none, minyanType := none,
    earliestTime := none, latestTime := none }

/-- C7 witness: the concrete body missing longitude (and later fields) fails
naming longitude, leaving the table unchanged. -/
theorem C7_create_missing_field_witness :
    firstMissingField dMiss = some "longitude" ∧
    Broadcasts_post parseFix "id-2" dMiss =
      Except.error ("Missing required field: " ++ "longitude", 400) ∧
    Broadcasts_post_table parseFix "id-2" [b0] dMiss = [b0] := by
  have hm : firstMissingField dMiss = some "longitude" := rfl
  obtain ⟨ha, hb⟩ :=
    C7_create_missing_field parseFix "id-2" [b0] dMiss "longitude" hm
  exact ⟨hm, ha, hb⟩

/-- C2: an update whose payload contains only `latestTime`, parsing to an
instant not strictly later than the stored `earliestTime`, is rejected with
the validation message and status 400, and the persisted row is unchanged in
every field. -/
theorem C2_update_latest_only_rejected (parse : String → Except String ℤ)
    (b : Broadcast) (ts : PyVal) (t : ℤ)
    (hp : parsePyTime parse ts = Except.ok t) (hle : t ≤ b.earliestTime) :
    BroadcastById_put parse b (some ⟨none, none, none, some ts⟩) =
      Except.error ("latestTime must be after earliestTime", 400) ∧
    BroadcastById_put_row parse b (some ⟨none, none, none, some ts⟩) = b := by
  have h1 : BroadcastById_put parse b (some ⟨none, none, none, some ts⟩) =
      Except.error ("latestTime must be after earliestTime", 400) := by
    simp [BroadcastById_put, put_update_coords, put_update_earliest,
      put_update_latest, hp, hle]
  exact ⟨h1, by simp [BroadcastById_put_row, h1]⟩

/-- C2 witness: a concrete broadcast, a payload whose `latestTime` parses to
exactly the stored `earliestTime`, a rejected update, an unchanged row. -/
theorem C2_update_latest_only_rejected_witness :
    parsePyTime parseFix (PyVal.str "2025-12-27T08:00:00Z") = Except.ok 28800 ∧
    (28800 : ℤ) ≤ b0.earliestTime ∧
    BroadcastById_put_row parseFix b0
      (some ⟨none, none, none, some (PyVal.str "2025-12-27T08:00:00Z")⟩) = b0 := by
  have hp : parsePyTime parseFix (PyVal.str "2025-12-27T08:00:00Z") =
      Except.ok 28800 := by
    simp [parsePyTime, parseFix]
  have hle : (28800 : ℤ) ≤ b0.earliestTime := le_refl _
  exact ⟨hp, hle,
    (C2_update_latest_only_rejected parseFix b0
      (PyVal.str "2025-12-27T08:00:00Z") 28800 hp hle).2⟩

/-- C9: a successful update never changes the broadcast's id, minyanType or
active flag. -/
theorem C9_update_frame (parse : String → Except String ℤ) (b : Broadcast)
    (body : Option UpdateData) (b2 : Broadcast)
    (h : BroadcastById_put parse b body = Except.ok b2) :
    b2.id = b.id ∧ b2.minyanType = b.minyanType ∧ b2.active = b.active := by
  obtain ⟨h1, h2, h3, _, _⟩ := put_ok_spec parse b body b2 h
  exact ⟨h1, h2, h3⟩

/-- C9 witness: a concrete successful update (empty body) preserving id,
minyanType and active. -/
theorem C9_update_frame_witness :
    ∃ b2, BroadcastById_put parseFix b0 none = Except.ok b2 ∧
      b2.id = b0.id ∧ b2.minyanType = b0.minyanType ∧ b2.active = b0.active := by
  have hput : BroadcastById_put parseFix b0 none = Except.ok b0 := by
    simp [BroadcastById_put, put_update_coords, put_update_earliest,
      put_update_latest, b0]
  exact ⟨b0, hput, C9_update_frame parseFix b0 none b0 hput⟩

/-- C10: an absent or null request body behaves as the empty partial update —
it succeeds and returns the stored row unchanged, provided the stored row
satisfies latest > earliest. -/
theorem C10_update_empty_body (parse : String → Except String ℤ) (b : Broadcast)
    (hb : b.earliestTime < b.latestTime) :
    BroadcastById_put parse b none =
      BroadcastById_put parse b (some ⟨none, none, none, none⟩) ∧
    BroadcastById_put parse b none = Except.ok b := by
  refine ⟨rfl, ?_⟩
  simp [BroadcastById_put, put_update_coords, put_update_earliest,
    put_update_latest, not_le.mpr hb]

/-- C10 witness: the empty-body update on a concrete broadcast succeeds and
leaves it unchanged. -/
theorem C10_update_empty_body_witness :
    b0.earliestTime < b0.latestTime ∧
    BroadcastById_put parseFix b0 none = Except.ok b0 := by
  have hb : b0.earliestTime < b0.latestTime := by norm_num [b0]
  exact ⟨hb, (C10_update_empty_body parseFix b0 hb).2⟩

/-- C1: for every query with valid coordinates, radius ≥ 0 and an absent or
valid `minyanType`, `NearbyBroadcasts_get` succeeds and its result contains
exactly the stored broadcasts with `active = true`, matching the type filter
when one is in effect, whose haversine distance from the query point is ≤
radius (inclusive boundary). -/
theorem C1_findNearby_exact (store : List Broadcast) (lat lon radius : ℝ)
    (mt : Option String)
    (hv : (validate_coordinates (PyVal.num lat) (PyVal.num lon)).1 = true)
    (hr : 0 ≤ radius)
    (hmt : mt = none ∨ ∃ s, mt = some s ∧ (validate_minyan_type (PyVal.str s)).1 = true) :
    ∃ l, NearbyBroadcasts_get store lat lon radius mt = Except.ok l ∧
      ∀ b, b ∈ l ↔ b ∈ store ∧ b.active = true ∧
        (∀ s, mt = some s → b.minyanType = s) ∧
        calculate_distance lat lon b.latitude b.longitude ≤ radius := by
  have hr' : ¬ radius < 0 := not_lt.mpr hr
  rcases hmt with rfl | ⟨s, rfl, hw⟩
  · refine ⟨_, get_none_eq store lat lon radius hv hr', fun b => ?_⟩
    rw [mem_active_keepNearby]
    constructor
    · rintro ⟨h1, h2, h3⟩
      exact ⟨h1, h2, (fun s hs => Option.noConfusion hs), h3⟩
    · rintro ⟨h1, h2, _, h3⟩
      exact ⟨h1, h2, h3⟩
  · refine ⟨_, get_some_eq store lat lon radius s hv hr'
      (valid_minyan_ne_empty s hw) hw, fun b => ?_⟩
    rw [mem_typed_keepNearby]
    constructor
    · rintro ⟨h1, h2, h3, h4⟩
      exact ⟨h1, h2, (fun s' hs' => by cases hs'; exact h3), h4⟩
    · rintro ⟨h1, h2, h3, h4⟩
      exact ⟨h1, h2, h3 s rfl, h4⟩

/-- C1 witness: a store with one active broadcast at (40.0, -74.0) queried at
(40.0, -74.0) with radius 0 and no type filter returns that broadcast. -/
theorem C1_findNearby_exact_witness :
    (validate_coordinates (PyVal.num 40.0) (PyVal.num (-74.0))).1 = true ∧
    (0 : ℝ) ≤ 0 ∧
    ∃ l, NearbyBroadcasts_get [b0] 40.0 (-74.0) 0 none = Except.ok l ∧ b0 ∈ l := by
  have hv : (validate_coordinates (PyVal.num 40.0) (PyVal.num (-74.0))).1 = true := by
    norm_num [validate_coordinates]
  refine ⟨hv, le_refl 0, ?_⟩
  obtain ⟨l, hl, hmem⟩ :=
    C1_findNearby_exact [b0] 40.0 (-74.0) 0 none hv (le_refl 0) (Or.inl rfl)
  refine ⟨l, hl, (hmem b0).2 ⟨by simp, rfl, (fun s hs => Option.noConfusion hs), ?_⟩⟩
  show calculate_distance 40.0 (-74.0) b0.latitude b0.longitude ≤ 0
  rw [show b0.latitude = 40.0 from rfl, show b0.longitude = -74.0 from rfl,
    calculate_distance_self]

/-- C4: the haversine distance is symmetric in its two coordinate pairs, and
is 0 on coinciding points. -/
theorem C4_distance_symm_and_self :
    (∀ lat1 lon1 lat2 lon2 : ℝ,
      calculate_distance lat1 lon1 lat2 lon2 = calculate_distance lat2 lon2 lat1 lon1) ∧
    (∀ lat lon : ℝ, calculate_distance lat lon lat lon = 0) :=
  ⟨calculate_distance_comm, calculate_distance_self⟩

/-- C5: `validate_coordinates` returns ok with an empty message exactly when
both inputs are numbers, the latitude lies in [-90, 90] and the longitude lies
in [-180, 180] (boundaries included); every other input is rejected. -/
theorem C5_validate_coordinates_iff (a b : PyVal) :
    validate_coordinates a b = (true, "") ↔
      ∃ x y, a = PyVal.num x ∧ b = PyVal.num y ∧
        -90 ≤ x ∧ x ≤ 90 ∧ -180 ≤ y ∧ y ≤ 180 :=
  validate_coordinates_ok a b

/-- C6: `validate_minyan_type` succeeds exactly on the three case-sensitive
strings "shacharit", "mincha", "maariv"; every other value is rejected with
the fixed message. -/
theorem C6_validate_minyan_type_iff (v : PyVal) :
    ((validate_minyan_type v).1 = true ↔
      v = PyVal.str "shacharit" ∨ v = PyVal.str "mincha" ∨ v = PyVal.str "maariv") ∧
    ((validate_minyan_type v).1 = false →
      (validate_minyan_type v).2 = "Minyan type must be one of: shacharit, mincha, maariv") := by
  refine ⟨validate_minyan_type_fst_true v, ?_⟩
  cases v <;> simp [validate_minyan_type]
  case str s => split_ifs <;> simp

/-- C8 counterexample: the query parameter `minyanType = ""` is provided and
is not a member of the enumeration, yet the handler does not fail — the Python
truthiness test `if minyan_type:` skips validation for the empty string. -/
theorem C8_counterexample_empty_string :
    (validate_minyan_type (PyVal.str "")).1 = false ∧
    NearbyBroadcasts_get [] 0 0 0 (some "") = Except.ok [] := by
  constructor
  · simp [validate_minyan_type]
  · rw [get_some_empty_eq, get_none_eq]
    · simp [keepNearby]
    · norm_num [validate_coordinates]
    · norm_num

/-- C8 (amended): under valid coordinates and radius ≥ 0, a provided non-empty
`minyanType` is validated — an invalid one fails with the validator's message
and status 400, a valid one is applied as an equality filter — while an absent
or empty `minyanType` applies no type filter at all. -/
theorem C8_amended_minyan_filter (store : List Broadcast) (lat lon radius : ℝ)
    (hv : (validate_coordinates (PyVal.num lat) (PyVal.num lon)).1 = true)
    (hr : 0 ≤ radius) :
    (∀ s, s ≠ "" → (validate_minyan_type (PyVal.str s)).1 = false →
      NearbyBroadcasts_get store lat lon radius (some s) =
        Except.error ((validate_minyan_type (PyVal.str s)).2, 400)) ∧
    (∀ s, (validate_minyan_type (PyVal.str s)).1 = true →
      ∃ l, NearbyBroadcasts_get store lat lon radius (some s) = Except.ok l ∧
        ∀ b, b ∈ l ↔ b ∈ store ∧ b.active = true ∧ b.minyanType = s ∧
          calculate_distance lat lon b.latitude b.longitude ≤ radius) ∧
    NearbyBroadcasts_get store lat lon radius (some "") =
      NearbyBroadcasts_get store lat lon radius none ∧
    (∃ l, NearbyBroadcasts_get store lat lon radius none = Except.ok l ∧
      ∀ b, b ∈ l ↔ b ∈ store ∧ b.active = true ∧
        calculate_distance lat lon b.latitude b.longitude ≤ radius) := by
  have hr' : ¬ radius < 0 := not_lt.mpr hr
  refine ⟨fun s hs hw => get_some_invalid_eq store lat lon radius s hv hr' hs hw,
    fun s hw => ?_, get_some_empty_eq store lat lon radius, ?_⟩
  · exact ⟨_, get_some_eq store lat lon radius s hv hr'
      (valid_minyan_ne_empty s hw) hw,
      fun b => mem_typed_keepNearby store lat lon radius s b⟩
  · exact ⟨_, get_none_eq store lat lon radius hv hr',
      fun b => mem_active_keepNearby store lat lon radius b⟩

/-- C8 witness: the amended statement instantiated at a concrete query. -/
theorem C8_amended_minyan_filter_witness :
    (validate_coordinates (PyVal.num 0) (PyVal.num 0)).1 = true ∧ (0 : ℝ) ≤ 0 ∧
    NearbyBroadcasts_get ([] : List Broadcast) 0 0 0 (some "") =
      NearbyBroadcasts_get [] 0 0 0 none := by
  have hv : (validate_coordinates (PyVal.num 0) (PyVal.num 0)).1 = true := by
    norm_num [validate_coordinates]
  exact ⟨hv, le_refl 0, (C8_amended_minyan_filter [] 0 0 0 hv (le_refl 0)).2.2.1⟩

/-- C6 witness: the case-different string "Shacharit" is rejected with the
fixed message. -/
theorem C6_validate_minyan_type_iff_witness :
    (validate_minyan_type (PyVal.str "Shacharit")).1 = false ∧
    (validate_minyan_type (PyVal.str "Shacharit")).2 =
      "Minyan type must be one of: shacharit, mincha, maariv" := by
  have hf : (validate_minyan_type (PyVal.str "Shacharit")).1 = false := by
    simp [validate_minyan_type]
  exact ⟨hf, (C6_validate_minyan_type_iff (PyVal.str "Shacharit")).2 hf⟩
